import Mathlib

/-!
Verification development for the Dusk p2p node core (src-tauri).

The Rust sources are shallowly embedded: each Lean definition mirrors one
Rust function or data type, keeping the source name where possible.
Machine integers (u64/i64/u32) are modelled as Nat/Int; the documents of
the automerge library are modelled as an explicit JSON-like tree (the
exact shape built by crdt/document.rs), while the opaque library
operations (save/load/merge of the binary snapshot format) and external
crypto primitives (sha256, ed25519 verification, the std DefaultHasher)
are taken as explicit function parameters, bundled in `Externals`.
SQLite tables are modelled as lists of row structures; storage writes are
modelled as always succeeding (I/O failures are environmental and outside
the proved properties).
-/

namespace Dusk

/-- Association-list helpers modelling automerge maps and other keyed
collections.  The source iterates automerge map keys in sorted order;
the model keeps insertion order.  None of the proved properties depends
on the iteration order of a map with unique keys. -/
def alGet (k : String) : List (String × α) → Option α
  | [] => none
  | (k2, v) :: rest => if k2 == k then some v else alGet k rest

/-- Insert or replace the value stored under key `k` (automerge `put`). -/
def alPut (k : String) (v : α) : List (String × α) → List (String × α)
  | [] => [(k, v)]
  | (k2, w) :: rest => if k2 == k then (k, v) :: rest else (k2, w) :: alPut k v rest

/-- Delete the entry stored under key `k` (automerge `delete`); deleting an
absent key is a no-op. -/
def alDelete (k : String) : List (String × α) → List (String × α)
  | [] => []
  | (k2, w) :: rest => if k2 == k then rest else (k2, w) :: alDelete k rest

-- protocol/messages.rs

/-- ChatMessage from protocol/messages.rs. -/
structure ChatMessage where
  id : String
  channel_id : String
  author_id : String
  author_name : String
  content : String
  timestamp : Nat
  edited : Bool
  deriving DecidableEq, Repr

/-- TypingIndicator from protocol/messages.rs. -/
structure TypingIndicator where
  peer_id : String
  channel_id : String
  timestamp : Nat
  deriving DecidableEq, Repr

/-- PeerStatus from protocol/messages.rs. -/
inductive PeerStatus
  | Online
  | Idle
  | Offline
  deriving DecidableEq, Repr

/-- PresenceUpdate from protocol/messages.rs. -/
structure PresenceUpdate where
  peer_id : String
  display_name : String
  status : PeerStatus
  timestamp : Nat
  deriving DecidableEq, Repr

/-- VerificationProof from protocol/identity.rs (the behavioural score is
an f64 in the source, modelled as Float; no proved property computes
with it). -/
structure VerificationProof where
  metrics_hash : String
  signature : String
  timestamp : Nat
  score : Float
  deriving Repr

/-- ProfileAnnouncement from protocol/messages.rs. -/
structure ProfileAnnouncement where
  peer_id : String
  display_name : String
  bio : String
  public_key : String
  timestamp : Nat
  verification_proof : Option VerificationProof
  signature : String
  deriving Repr

/-- ProfileRevocation from protocol/messages.rs. -/
structure ProfileRevocation where
  peer_id : String
  public_key : String
  timestamp : Nat
  signature : String
  deriving DecidableEq, Repr

/-- VoiceMediaState from protocol/messages.rs. -/
structure VoiceMediaState where
  muted : Bool
  deafened : Bool
  video_enabled : Bool
  screen_sharing : Bool
  deriving DecidableEq, Repr

/-- DirectMessage from protocol/messages.rs. -/
structure DirectMessage where
  id : String
  from_peer : String
  to_peer : String
  from_display_name : String
  content : String
  timestamp : Nat
  deriving DecidableEq, Repr

/-- DMTypingIndicator from protocol/messages.rs. -/
structure DMTypingIndicator where
  from_peer : String
  to_peer : String
  timestamp : Nat
  deriving DecidableEq, Repr

/-- DMConversationMeta from protocol/messages.rs. -/
structure DMConversationMeta where
  peer_id : String
  display_name : String
  last_message : Option String
  last_message_time : Option Nat
  unread_count : Nat
  deriving DecidableEq, Repr

-- protocol/community.rs and protocol/identity.rs

/-- CommunityMeta from protocol/community.rs. -/
structure CommunityMeta where
  id : String
  name : String
  description : String
  created_by : String
  created_at : Nat
  deriving DecidableEq, Repr

/-- ChannelKind from protocol/community.rs. -/
inductive ChannelKind
  | Text
  | Voice
  deriving DecidableEq, Repr

/-- ChannelMeta as used by crdt/document.rs `get_channels` (this version
carries `position` and `category_id`, which the reader functions fill). -/
structure ChannelMeta where
  id : String
  community_id : String
  name : String
  topic : String
  kind : ChannelKind
  position : Nat
  category_id : Option String
  deriving DecidableEq, Repr

/-- InviteCode from protocol/community.rs.  The base58/JSON transport
codec is external; the commands below operate on the decoded value. -/
structure InviteCode where
  community_id : String
  community_name : String
  deriving DecidableEq, Repr

/-- Member from protocol/community.rs (trust_level is an f64 constant 1.0
in every reader; modelled as Float, never computed with). -/
structure Member where
  peer_id : String
  display_name : String
  status : PeerStatus
  roles : List String
  trust_level : Float
  joined_at : Nat
  deriving Repr

/-- DirectoryEntry from protocol/identity.rs. -/
structure DirectoryEntry where
  peer_id : String
  display_name : String
  bio : String
  public_key : String
  last_seen : Nat
  is_friend : Bool
  deriving DecidableEq, Repr

/-- GossipMessage envelope from protocol/messages.rs. -/
inductive GossipMessage
  | Chat (msg : ChatMessage)
  | Typing (ind : TypingIndicator)
  | Presence (update : PresenceUpdate)
  | MetaUpdate (meta : CommunityMeta)
  | DeleteMessage (message_id : String)
  | MemberKicked (peer_id : String)
  | ProfileAnnounce (a : ProfileAnnouncement)
  | ProfileRevoke (r : ProfileRevocation)
  | DirectMessage (dm : DirectMessage)
  | DMTyping (ind : DMTypingIndicator)
  | VoiceJoin (community_id channel_id peer_id display_name : String) (media_state : VoiceMediaState)
  | VoiceLeave (community_id channel_id peer_id : String)
  | VoiceMediaStateUpdate (community_id channel_id peer_id : String) (media_state : VoiceMediaState)
  | VoiceSdp (community_id channel_id from_peer to_peer sdp_type sdp : String)
  | VoiceIceCandidate (community_id channel_id from_peer to_peer candidate : String)
      (sdp_mid : Option String) (sdp_mline_index : Option Nat)
  deriving Repr

-- crdt/sync.rs

/-- DocumentSnapshot from crdt/sync.rs; the automerge byte blob is the
type parameter `β`. -/
structure DocumentSnapshot (β : Type) where
  community_id : String
  doc_bytes : β
  deriving Repr

/-- SyncMessage from crdt/sync.rs. -/
inductive SyncMessage (β : Type)
  | RequestSync (peer_id : String)
  | DocumentOffer (snapshot : DocumentSnapshot β)
  deriving Repr

-- The automerge community document tree, as built by crdt/document.rs.

/-- One message record inside a channel's `messages` list
(crdt/document.rs `append_message` writes exactly these fields). -/
structure DocMessage where
  id : String
  author_id : String
  author_name : String
  content : String
  timestamp : Int
  edited : Bool
  deriving DecidableEq, Repr

/-- One channel record inside the `channels` map. -/
structure DocChannel where
  name : String
  topic : String
  kind : String
  position : Int
  category_id : Option String
  messages : List DocMessage
  deriving DecidableEq, Repr

/-- One member record inside the `members` map. -/
structure DocMember where
  display_name : String
  joined_at : Int
  roles : List String
  deriving DecidableEq, Repr

/-- One category record inside the `categories` map. -/
structure DocCategory where
  name : String
  position : Int
  deriving DecidableEq, Repr

/-- The `meta` map of a community document. -/
structure DocMeta where
  name : String
  description : String
  created_by : String
  created_at : Int
  deriving DecidableEq, Repr

/-- A community document: the JSON-like automerge tree rooted at
meta/channels/categories/members.  The root `roles` map created by
`init_community_doc` stays empty and is never read or written by any
other function, so it is omitted from the model. -/
structure Doc where
  meta : DocMeta
  channels : List (String × DocChannel)
  categories : List (String × DocCategory)
  members : List (String × DocMember)
  deriving DecidableEq, Repr

/-- External primitives the embedded code calls but does not implement:
the automerge binary codec and merge, and the sha256 hex digest used for
deterministic channel ids.  `β` is the type of serialized document
bytes. -/
structure Externals (β : Type) where
  amSave : Doc → β
  amLoad : β → Option Doc
  amMerge : Doc → Doc → Doc
  sha256hex : String → String

-- crdt/document.rs

/-- init_community_doc from crdt/document.rs: meta, empty categories and
an empty members map, a default `general` text channel with id derived
from sha256, then the creator inserted as the only member with role
`owner`.  `now` is the caller-side SystemTime in milliseconds. -/
def init_community_doc (sha256hex : String → String) (now : Int)
    (name description created_by : String) : Doc :=
  let general_id := "ch_" ++ (sha256hex (name ++ "_general")).take 12
  { meta := { name := name, description := description, created_by := created_by,
              created_at := now }
  , channels := [(general_id,
      { name := "general", topic := "general discussion", kind := "text",
        position := 0, category_id := none, messages := [] })]
  , categories := []
  , members := [(created_by,
      { display_name := "", joined_at := now, roles := ["owner"] })] }

/-- Helper mirroring the `match kind_str` in get_channels. -/
def channelKindOfString (s : String) : ChannelKind :=
  if s == "voice" then ChannelKind.Voice else ChannelKind.Text

/-- Stable insertion step for sorting channels by position (Rust
`sort_by_key` is stable; insertion before the first strictly greater
element preserves stability under a right fold). -/
def chanInsert (c : ChannelMeta) : List ChannelMeta → List ChannelMeta
  | [] => [c]
  | d :: rest => if d.position < c.position then d :: chanInsert c rest else c :: d :: rest

/-- get_channels from crdt/document.rs: read every channel record and
sort by position ascending.  The i64→u32 position cast is modelled with
`Int.toNat` (all stored positions are non-negative). -/
def get_channels_doc (community_id : String) (doc : Doc) : List ChannelMeta :=
  (doc.channels.map (fun p =>
    { id := p.1, community_id := community_id, name := p.2.name, topic := p.2.topic,
      kind := channelKindOfString p.2.kind, position := p.2.position.toNat,
      category_id := p.2.category_id })).foldr chanInsert []

/-- get_community_meta from crdt/document.rs (the document always has a
`meta` map in this model, so the missing-map error path is dropped). -/
def get_community_meta_doc (community_id : String) (doc : Doc) : CommunityMeta :=
  { id := community_id, name := doc.meta.name, description := doc.meta.description,
    created_by := doc.meta.created_by, created_at := doc.meta.created_at.toNat }

/-- get_members from crdt/document.rs: every member row becomes a Member
with constant Online status and trust_level 1.0. -/
def get_members_doc (doc : Doc) : List Member :=
  doc.members.map (fun p =>
    { peer_id := p.1, display_name := p.2.display_name, status := PeerStatus.Online,
      roles := p.2.roles, trust_level := 1.0, joined_at := p.2.joined_at.toNat })

/-- get_message_by_id from crdt/document.rs: scan channels, then each
channel's messages in order; the first record whose id matches is
returned with the channel key as its channel_id. -/
def get_message_by_id (doc : Doc) (message_id : String) : Option ChatMessage :=
  doc.channels.findSome? (fun p =>
    (p.2.messages.find? (fun m => m.id == message_id)).map (fun m =>
      { id := m.id, channel_id := p.1, author_id := m.author_id,
        author_name := m.author_name, content := m.content,
        timestamp := m.timestamp.toNat, edited := m.edited }))

/-- Remove the first message with the given id from a channel's list
(delete at the first matching index). -/
def removeFirstMsg (message_id : String) : List DocMessage → List DocMessage
  | [] => []
  | m :: rest => if m.id == message_id then rest else m :: removeFirstMsg message_id rest

/-- Scan the channels in order; in the first channel containing a message
with the given id, delete that message.  `none` when no channel has it. -/
def deleteMsgInChannels (message_id : String) :
    List (String × DocChannel) → Option (List (String × DocChannel))
  | [] => none
  | (k, ch) :: rest =>
    if ch.messages.any (fun m => m.id == message_id) then
      some ((k, { ch with messages := removeFirstMsg message_id ch.messages }) :: rest)
    else
      (deleteMsgInChannels message_id rest).map (fun r => (k, ch) :: r)

/-- delete_message_by_id from crdt/document.rs. -/
def delete_message_by_id (doc : Doc) (message_id : String) : Except String Doc :=
  match deleteMsgInChannels message_id doc.channels with
  | some chs => .ok { doc with channels := chs }
  | none => .error ("message " ++ message_id ++ " not found")

/-- remove_member from crdt/document.rs (automerge delete of the member
key; absent key is a no-op). -/
def remove_member_doc (doc : Doc) (peer_id : String) : Doc :=
  { doc with members := alDelete peer_id doc.members }

/-- set_member_role from crdt/document.rs: replace the member's roles
list; error when the member is absent. -/
def set_member_role_doc (doc : Doc) (peer_id : String) (roles : List String) :
    Except String Doc :=
  match alGet peer_id doc.members with
  | none => .error "member not found"
  | some m => .ok { doc with members := alPut peer_id { m with roles := roles } doc.members }

-- node/gossip.rs — topic namer

/-- topic_for_messages from node/gossip.rs. -/
def topic_for_messages (community_id channel_id : String) : String :=
  "dusk/community/" ++ community_id ++ "/channel/" ++ channel_id ++ "/messages"

/-- topic_for_typing from node/gossip.rs. -/
def topic_for_typing (community_id channel_id : String) : String :=
  "dusk/community/" ++ community_id ++ "/channel/" ++ channel_id ++ "/typing"

/-- topic_for_presence from node/gossip.rs. -/
def topic_for_presence (community_id : String) : String :=
  "dusk/community/" ++ community_id ++ "/presence"

/-- topic_for_sync from node/gossip.rs. -/
def topic_for_sync : String := "dusk/sync"

/-- topic_for_directory from node/gossip.rs. -/
def topic_for_directory : String := "dusk/directory"

/-- topic_for_dm from node/gossip.rs: the two peer ids sorted
lexicographically (byte order in Rust, character order here; identical on
the ASCII peer-id alphabet). -/
def topic_for_dm (peer_a peer_b : String) : String :=
  if peer_a < peer_b then "dusk/dm/" ++ peer_a ++ "/" ++ peer_b
  else "dusk/dm/" ++ peer_b ++ "/" ++ peer_a

/-- topic_for_dm_inbox from node/gossip.rs. -/
def topic_for_dm_inbox (peer_id : String) : String :=
  "dusk/dm/inbox/" ++ peer_id

/-- dm_conversation_id from node/gossip.rs: sort the two peer ids, hash
them with the std DefaultHasher and render 16 lowercase hex digits.  The
hasher is external; `hash64hex a b` stands for
format!("{:016x}", hash(a, b)) on the sorted pair. -/
def dm_conversation_id (hash64hex : String → String → String) (peer_a peer_b : String) :
    String :=
  if peer_a < peer_b then "dm_" ++ hash64hex peer_a peer_b
  else "dm_" ++ hash64hex peer_b peer_a

/-- community_id_from_topic from node/mod.rs: strip the
`dusk/community/` prefix and take the segment before the next slash
(Rust `split('/').next()` always yields the first segment). -/
def community_id_from_topic (topic : String) : Option String :=
  if topic.startsWith "dusk/community/" then
    ((topic.drop "dusk/community/".length).splitOn "/").head?
  else none

-- storage/disk.rs — the sqlite tables as lists of rows

/-- One row of the dm_conversations table. -/
structure DmConversationRow where
  conversation_id : String
  peer_id : String
  display_name : String
  last_message : Option String
  last_message_time : Option Nat
  unread_count : Nat
  deriving DecidableEq, Repr

/-- One row of the dm_messages table (id is the primary key). -/
structure DmMessageRow where
  id : String
  conversation_id : String
  from_peer : String
  to_peer : String
  from_display_name : String
  content : String
  timestamp : Nat
  deriving DecidableEq, Repr

/-- One row of the dm_message_fts full-text index. -/
structure FtsRow where
  message_id : String
  conversation_id : String
  content : String
  deriving DecidableEq, Repr

/-- DiskStorage from storage/disk.rs: the tables touched by the verified
operations.  `β` is the opaque automerge blob stored in
community_documents. -/
structure DiskStorage (β : Type) where
  community_documents : List (String × β)
  community_meta : List (String × CommunityMeta)
  directory_entries : List DirectoryEntry
  dm_conversations : List DmConversationRow
  dm_messages : List DmMessageRow
  dm_message_fts : List FtsRow
  fts_enabled : Bool

/-- save_document from storage/disk.rs: INSERT .. ON CONFLICT DO UPDATE,
keyed by community_id. -/
def DiskStorage.save_document (s : DiskStorage β) (community_id : String) (doc_bytes : β) :
    DiskStorage β :=
  { s with community_documents := alPut community_id doc_bytes s.community_documents }

/-- save_community_meta from storage/disk.rs (upsert of the JSON meta
cache, keyed by community_id). -/
def DiskStorage.save_community_meta (s : DiskStorage β) (meta : CommunityMeta) :
    DiskStorage β :=
  { s with community_meta := alPut meta.id meta s.community_meta }

/-- save_directory_entry from storage/disk.rs: upsert replacing every
column of the conflicting row. -/
def DiskStorage.save_directory_entry (s : DiskStorage β) (entry : DirectoryEntry) :
    DiskStorage β :=
  { s with directory_entries :=
      if s.directory_entries.any (fun r => r.peer_id == entry.peer_id) then
        s.directory_entries.map (fun r => if r.peer_id == entry.peer_id then entry else r)
      else
        s.directory_entries ++ [entry] }

/-- save_directory_entry_if_new from storage/disk.rs: on conflict update
only display_name and last_seen (keeping the larger last_seen), preserving
bio, public_key and is_friend. -/
def DiskStorage.save_directory_entry_if_new (s : DiskStorage β) (entry : DirectoryEntry) :
    DiskStorage β :=
  { s with directory_entries :=
      if s.directory_entries.any (fun r => r.peer_id == entry.peer_id) then
        s.directory_entries.map (fun r =>
          if r.peer_id == entry.peer_id then
            { r with display_name := entry.display_name,
                     last_seen := if entry.last_seen > r.last_seen then entry.last_seen
                                  else r.last_seen }
          else r)
      else
        s.directory_entries ++ [entry] }

/-- Row lookup in directory_entries; `load_directory` builds a map keyed
by peer_id, so `load_directory().get(p)` is the row with that primary
key. -/
def DiskStorage.load_directory_get (s : DiskStorage β) (peer_id : String) :
    Option DirectoryEntry :=
  s.directory_entries.find? (fun r => r.peer_id == peer_id)

/-- load_dm_conversation from storage/disk.rs (row by primary key). -/
def DiskStorage.load_dm_conversation (s : DiskStorage β) (conversation_id : String) :
    Option DmConversationRow :=
  s.dm_conversations.find? (fun r => r.conversation_id == conversation_id)

/-- save_dm_conversation from storage/disk.rs: upsert replacing every
meta column of the conflicting row. -/
def DiskStorage.save_dm_conversation (s : DiskStorage β) (conversation_id : String)
    (meta : DMConversationMeta) : DiskStorage β :=
  let row : DmConversationRow :=
    { conversation_id := conversation_id, peer_id := meta.peer_id,
      display_name := meta.display_name, last_message := meta.last_message,
      last_message_time := meta.last_message_time, unread_count := meta.unread_count }
  { s with dm_conversations :=
      if s.dm_conversations.any (fun r => r.conversation_id == conversation_id) then
        s.dm_conversations.map (fun r =>
          if r.conversation_id == conversation_id then row else r)
      else
        s.dm_conversations ++ [row] }

/-- append_dm_message from storage/disk.rs: first a placeholder
conversation row `ON CONFLICT DO NOTHING`, then `INSERT OR IGNORE` of the
message keyed by id, mirroring `(id, conv_id, content)` into the FTS
index only when the message row was actually inserted. -/
def DiskStorage.append_dm_message (s : DiskStorage β) (conversation_id : String)
    (message : DirectMessage) : DiskStorage β :=
  { s with
    dm_conversations :=
      if s.dm_conversations.any (fun r => r.conversation_id == conversation_id) then
        s.dm_conversations
      else
        s.dm_conversations ++
          [{ conversation_id := conversation_id, peer_id := message.from_peer,
             display_name := message.from_display_name, last_message := none,
             last_message_time := none, unread_count := 0 }],
    dm_messages :=
      if s.dm_messages.any (fun r => r.id == message.id) then s.dm_messages
      else
        s.dm_messages ++
          [{ id := message.id, conversation_id := conversation_id,
             from_peer := message.from_peer, to_peer := message.to_peer,
             from_display_name := message.from_display_name,
             content := message.content, timestamp := message.timestamp }],
    dm_message_fts :=
      if s.dm_messages.any (fun r => r.id == message.id) then s.dm_message_fts
      else if s.fts_enabled then
        s.dm_message_fts ++
          [{ message_id := message.id, conversation_id := conversation_id,
             content := message.content }]
      else s.dm_message_fts }

-- crdt/mod.rs — the CRDT engine

/-- CrdtEngine from crdt/mod.rs: the in-memory document registry plus the
shared DiskStorage handle (modelled by value and threaded through). -/
structure CrdtEngine (β : Type) where
  documents : List (String × Doc)
  storage : DiskStorage β

/-- has_community from crdt/mod.rs. -/
def CrdtEngine.has_community (e : CrdtEngine β) (community_id : String) : Bool :=
  (alGet community_id e.documents).isSome

/-- community_ids from crdt/mod.rs. -/
def CrdtEngine.community_ids (e : CrdtEngine β) : List String :=
  e.documents.map (fun p => p.1)

/-- persist from crdt/mod.rs: save the named document's bytes into
storage (the storage write itself is modelled as succeeding). -/
def CrdtEngine.persist (e : CrdtEngine β) (M : Externals β) (community_id : String) :
    Except String (CrdtEngine β) :=
  match alGet community_id e.documents with
  | none => .error "community not found"
  | some doc => .ok { e with storage := e.storage.save_document community_id (M.amSave doc) }

/-- create_community from crdt/mod.rs: initialize a fresh document,
insert it under community_id (replacing any previous entry of the map)
and persist.  There is no check whether a document for community_id is
already loaded. -/
def CrdtEngine.create_community (e : CrdtEngine β) (M : Externals β) (now : Int)
    (community_id name description created_by : String) : Except String (CrdtEngine β) :=
  let doc := init_community_doc M.sha256hex now name description created_by
  CrdtEngine.persist { e with documents := alPut community_id doc e.documents } M community_id

/-- get_channels from crdt/mod.rs. -/
def CrdtEngine.get_channels (e : CrdtEngine β) (community_id : String) :
    Except String (List ChannelMeta) :=
  match alGet community_id e.documents with
  | none => .error "community not found"
  | some doc => .ok (get_channels_doc community_id doc)

/-- get_community_meta from crdt/mod.rs. -/
def CrdtEngine.get_community_meta (e : CrdtEngine β) (community_id : String) :
    Except String CommunityMeta :=
  match alGet community_id e.documents with
  | none => .error "community not found"
  | some doc => .ok (get_community_meta_doc community_id doc)

/-- get_members from crdt/mod.rs. -/
def CrdtEngine.get_members (e : CrdtEngine β) (community_id : String) :
    Except String (List Member) :=
  match alGet community_id e.documents with
  | none => .error "community not found"
  | some doc => .ok (get_members_doc doc)

/-- get_message from crdt/mod.rs. -/
def CrdtEngine.get_message (e : CrdtEngine β) (community_id message_id : String) :
    Except String (Option ChatMessage) :=
  match alGet community_id e.documents with
  | none => .error "community not found"
  | some doc => .ok (get_message_by_id doc message_id)

/-- delete_message from crdt/mod.rs: delete in the document, then
persist. -/
def CrdtEngine.delete_message (e : CrdtEngine β) (M : Externals β)
    (community_id message_id : String) : Except String (CrdtEngine β) :=
  match alGet community_id e.documents with
  | none => .error "community not found"
  | some doc =>
    match delete_message_by_id doc message_id with
    | .error msg => .error msg
    | .ok doc2 =>
      CrdtEngine.persist { e with documents := alPut community_id doc2 e.documents } M
        community_id

/-- remove_member from crdt/mod.rs: remove in the document, then
persist. -/
def CrdtEngine.remove_member (e : CrdtEngine β) (M : Externals β)
    (community_id peer_id : String) : Except String (CrdtEngine β) :=
  match alGet community_id e.documents with
  | none => .error "community not found"
  | some doc =>
    CrdtEngine.persist
      { e with documents := alPut community_id (remove_member_doc doc peer_id) e.documents }
      M community_id

/-- set_member_role: the document-level operation is
crdt/document.rs `set_member_role`; the engine wrapper (called by the
event loop) follows the uniform look-up / mutate / persist pattern of
every other crdt/mod.rs wrapper. -/
def CrdtEngine.set_member_role (e : CrdtEngine β) (M : Externals β)
    (community_id peer_id : String) (roles : List String) : Except String (CrdtEngine β) :=
  match alGet community_id e.documents with
  | none => .error "community not found"
  | some doc =>
    match set_member_role_doc doc peer_id roles with
    | .error msg => .error msg
    | .ok doc2 =>
      CrdtEngine.persist { e with documents := alPut community_id doc2 e.documents } M
        community_id

/-- get_doc_bytes from crdt/mod.rs. -/
def CrdtEngine.get_doc_bytes (e : CrdtEngine β) (M : Externals β) (community_id : String) :
    Option β :=
  (alGet community_id e.documents).map M.amSave

/-- merge_remote_doc from crdt/mod.rs: load the remote snapshot; if a
local document exists merge the remote one into it, otherwise insert the
remote document directly; then persist. -/
def CrdtEngine.merge_remote_doc (e : CrdtEngine β) (M : Externals β)
    (community_id : String) (remote_bytes : β) : Except String (CrdtEngine β) :=
  match M.amLoad remote_bytes with
  | none => .error "failed to load remote doc"
  | some remote_doc =>
    let docs :=
      match alGet community_id e.documents with
      | some local_doc => alPut community_id (M.amMerge local_doc remote_doc) e.documents
      | none => alPut community_id remote_doc e.documents
    CrdtEngine.persist { e with documents := docs } M community_id

-- node/mod.rs — commands, events, event-loop handlers

/-- NodeCommand from node/mod.rs, restricted to the variants the verified
commands enqueue.  SendMessage carries the payload before JSON
serialization. -/
inductive NodeCommand
  | SendMessage (topic : String) (data : GossipMessage)
  | Subscribe (topic : String)
  | Unsubscribe (topic : String)
  | RegisterRendezvous (namespace_ : String)
  | DiscoverRendezvous (namespace_ : String)
  | UnregisterRendezvous (namespace_ : String)
  deriving Repr

/-- True exactly for the Unsubscribe variant. -/
def NodeCommand.is_unsubscribe : NodeCommand → Bool
  | NodeCommand.Unsubscribe _ => true
  | _ => false

/-- Direct swarm actions an event-loop handler performs (gossipsub
subscribe and publish calls made inline rather than via the command
queue). -/
inductive Effect (β : Type)
  | subscribe (topic : String)
  | publish_sync (msg : SyncMessage β)
  | publish_gossip (topic : String) (msg : GossipMessage)
  deriving Repr

/-- DuskEvent from node/mod.rs, restricted to the variants the verified
handlers emit. -/
inductive DuskEvent
  | MessageReceived (msg : ChatMessage)
  | MessageDeleted (message_id : String)
  | MemberKicked (peer_id : String)
  | SyncComplete (community_id : String)
  | ProfileReceived (peer_id display_name bio public_key : String)
  | ProfileRevoked (peer_id : String)
  | DMReceived (dm : DirectMessage)
  deriving Repr

/-- The event-loop state the verified handlers touch: the shared CRDT
engine (which owns the shared DiskStorage), the pending_join_role_guard
set and the bounded recent-DM-id dedup set. -/
structure EventLoopState (β : Type) where
  engine : CrdtEngine β
  pending_join_role_guard : List String
  seen_dm_ids : List String

/-- DocumentOffer handler from the node/mod.rs event loop: offers for a
community without a loaded document are discarded before any state
change; otherwise merge, run the one-shot join-role hardening when the
community is in pending_join_role_guard (downgrading a local elevated
role to `member` and republishing the corrected snapshot), re-subscribe
to the merged channel topics and emit SyncComplete. -/
def handle_document_offer (M : Externals β) (local_peer_id : String)
    (snapshot : DocumentSnapshot β) (st : EventLoopState β) :
    EventLoopState β × List (Effect β) × List DuskEvent :=
  if st.engine.has_community snapshot.community_id = false then
    (st, [], [])
  else
    let community_id := snapshot.community_id
    match st.engine.merge_remote_doc M community_id snapshot.doc_bytes with
    | .error _ => (st, [], [])
    | .ok e1 =>
      let channels_after_merge :=
        match e1.get_channels community_id with
        | .ok cs => cs
        | .error _ => []
      let should_harden_join_role := st.pending_join_role_guard.contains community_id
      let local_has_elevated_role :=
        should_harden_join_role &&
          (match e1.get_members community_id with
           | .ok members =>
             members.any (fun m =>
               m.peer_id == local_peer_id &&
                 m.roles.any (fun role => role == "owner" || role == "admin"))
           | .error _ => false)
      let next :=
        if local_has_elevated_role then
          match e1.set_member_role M community_id local_peer_id ["member"] with
          | .ok e2 => (e2, e2.get_doc_bytes M community_id)
          | .error _ => (e1, none)
        else (e1, (none : Option β))
      let guard2 :=
        if should_harden_join_role then
          st.pending_join_role_guard.filter (fun c => c ≠ community_id)
        else st.pending_join_role_guard
      let corrected_pub : List (Effect β) :=
        match next.2 with
        | some doc_bytes =>
          [Effect.publish_sync (SyncMessage.DocumentOffer
            { community_id := community_id, doc_bytes := doc_bytes })]
        | none => []
      let subs : List (Effect β) :=
        Effect.subscribe (topic_for_presence community_id) ::
          (channels_after_merge.map (fun ch =>
            [Effect.subscribe (topic_for_messages community_id ch.id),
             Effect.subscribe (topic_for_typing community_id ch.id)])).flatten
      ({ st with engine := next.1, pending_join_role_guard := guard2 },
       corrected_pub ++ subs,
       [DuskEvent.SyncComplete community_id])

/-- ProfileAnnounce handler from the node/mod.rs event loop: reject on
invalid signature, reject when the verification proof is absent,
otherwise upsert the directory entry with is_friend carried over from the
previously stored entry (false when none), and emit ProfileReceived.
`verify_announcement` is the external ed25519 check from
verification/mod.rs. -/
def handle_profile_announce (verify_announcement : String → ProfileAnnouncement → Bool)
    (profile : ProfileAnnouncement) (storage : DiskStorage β) :
    DiskStorage β × List DuskEvent :=
  if verify_announcement profile.public_key profile = false then
    (storage, [])
  else if profile.verification_proof.isNone then
    (storage, [])
  else
    let entry : DirectoryEntry :=
      { peer_id := profile.peer_id, display_name := profile.display_name,
        bio := profile.bio, public_key := profile.public_key,
        last_seen := profile.timestamp,
        is_friend :=
          ((storage.load_directory_get profile.peer_id).map
            (fun e => e.is_friend)).getD false }
    (storage.save_directory_entry entry,
     [DuskEvent.ProfileReceived profile.peer_id profile.display_name profile.bio
       profile.public_key])

/-- DirectMessage handler from the node/mod.rs event loop: only messages
addressed to the local peer are processed; the bounded recent-id set
dedups deliveries arriving on both the pair and the inbox topic (cleared
when it exceeds 10000 entries); an inbox delivery auto-subscribes to the
pair topic; the message is persisted with append_dm_message and the
conversation metadata upserted with an incremented unread count. -/
def handle_direct_message (hash64hex : String → String → String) (local_id : String)
    (topic_str : String) (dm_msg : DirectMessage) (st : EventLoopState β) :
    EventLoopState β × List (Effect β) × List DuskEvent :=
  if dm_msg.to_peer == local_id then
    if st.seen_dm_ids.contains dm_msg.id then
      (st, [], [])
    else
      let seen1 := dm_msg.id :: st.seen_dm_ids
      let seen2 := if seen1.length > 10000 then [] else seen1
      let effects : List (Effect β) :=
        if topic_str.startsWith "dusk/dm/inbox/" then
          [Effect.subscribe (topic_for_dm dm_msg.from_peer dm_msg.to_peer)]
        else []
      let conversation_id := dm_conversation_id hash64hex dm_msg.from_peer dm_msg.to_peer
      let s1 := st.engine.storage.append_dm_message conversation_id dm_msg
      let existing := s1.load_dm_conversation conversation_id
      let meta : DMConversationMeta :=
        { peer_id := dm_msg.from_peer, display_name := dm_msg.from_display_name,
          last_message := some dm_msg.content, last_message_time := some dm_msg.timestamp,
          unread_count := match existing with
            | some m => m.unread_count + 1
            | none => 1 }
      let s2 := s1.save_dm_conversation conversation_id meta
      ({ st with engine := { st.engine with storage := s2 }, seen_dm_ids := seen2 },
       effects, [DuskEvent.DMReceived dm_msg])
  else (st, [], [])

/-- DeleteMessage handler from the node/mod.rs event loop: derive the
community id from the topic, delete the matching message from that
community's document (ignoring the result) and emit MessageDeleted.  The
gossipsub Message struct carries a propagation source, bound with `..`
and never read; it is the unused `sender` parameter here. -/
def handle_delete_message_gossip (M : Externals β) (_sender : String) (topic_str : String)
    (message_id : String) (e : CrdtEngine β) : CrdtEngine β × List DuskEvent :=
  let e2 :=
    match community_id_from_topic topic_str with
    | some community_id =>
      match e.delete_message M community_id message_id with
      | .ok e2 => e2
      | .error _ => e
    | none => e
  (e2, [DuskEvent.MessageDeleted message_id])

-- commands/community.rs — the command API boundary

/-- join_community from commands/community.rs: operating on the decoded
invite, it creates a document via create_community (with empty
description and the local peer as created_by) when none is loaded, caches
the community meta, and enqueues subscribe / register / discover commands
when the node is running.  The pending_join_role_guard set is passed
through to record that this command never touches it. -/
def join_community (M : Externals β) (now : Int) (invite : InviteCode)
    (peer_id_str : String) (node_running : Bool) (e : CrdtEngine β)
    (pending_join_role_guard : List String) :
    Except String (CrdtEngine β × List String × List NodeCommand × CommunityMeta) :=
  let step1 : Except String (CrdtEngine β) :=
    if e.has_community invite.community_id then .ok e
    else e.create_community M now invite.community_id invite.community_name "" peer_id_str
  match step1 with
  | .error msg => .error msg
  | .ok e1 =>
    match e1.get_community_meta invite.community_id with
    | .error msg => .error msg
    | .ok meta =>
      let e2 := { e1 with storage := e1.storage.save_community_meta meta }
      let channels :=
        match e2.get_channels invite.community_id with
        | .ok cs => cs
        | .error _ => []
      let cmds : List NodeCommand :=
        if node_running then
          NodeCommand.Subscribe (topic_for_presence invite.community_id) ::
            (channels.map (fun ch =>
              [NodeCommand.Subscribe (topic_for_messages invite.community_id ch.id),
               NodeCommand.Subscribe (topic_for_typing invite.community_id ch.id)])).flatten ++
            [NodeCommand.RegisterRendezvous ("dusk/community/" ++ invite.community_id),
             NodeCommand.DiscoverRendezvous ("dusk/community/" ++ invite.community_id)]
        else []
      .ok (e2, pending_join_role_guard, cmds, meta)

/-- leave_community from commands/community.rs: enqueue Unsubscribe
commands for every channel's messages and typing topics and for the
presence topic when the node is running, and return Ok.  The function
only reads the engine; it is returned unchanged to record that neither
the document registry nor the persisted store is touched. -/
def leave_community (community_id : String) (node_running : Bool) (e : CrdtEngine β) :
    CrdtEngine β × List NodeCommand :=
  let cmds : List NodeCommand :=
    if node_running then
      (match e.get_channels community_id with
       | .ok channels =>
         (channels.map (fun ch =>
           [NodeCommand.Unsubscribe (topic_for_messages community_id ch.id),
            NodeCommand.Unsubscribe (topic_for_typing community_id ch.id)])).flatten
       | .error _ => []) ++
        [NodeCommand.Unsubscribe (topic_for_presence community_id)]
    else []
  (e, cmds)

/-- delete_message from commands/community.rs: look up the message, allow
deletion only by its author, delete in the engine, then broadcast
DeleteMessage on every channel topic of the community when the node is
running. -/
def delete_message (M : Externals β) (peer_id_str community_id message_id : String)
    (node_running : Bool) (e : CrdtEngine β) :
    Except String (CrdtEngine β × List NodeCommand) :=
  match e.get_message community_id message_id with
  | .error msg => .error msg
  | .ok none => .error ("message " ++ message_id ++ " not found")
  | .ok (some message) =>
    if message.author_id ≠ peer_id_str then
      .error "not authorized to delete this message"
    else
      match e.delete_message M community_id message_id with
      | .error msg => .error msg
      | .ok e2 =>
        let cmds : List NodeCommand :=
          if node_running then
            match e2.get_channels community_id with
            | .ok channels =>
              channels.map (fun ch =>
                NodeCommand.SendMessage (topic_for_messages community_id ch.id)
                  (GossipMessage.DeleteMessage message_id))
            | .error _ => []
          else []
        .ok (e2, cmds)

/-- kick_member from commands/community.rs: the requester must be a
community member with role admin or owner; the owner cannot be kicked;
on success the target is removed from the members map and MemberKicked is
broadcast on the presence topic when the node is running. -/
def kick_member (M : Externals β) (requester_id community_id member_peer_id : String)
    (node_running : Bool) (e : CrdtEngine β) :
    Except String (CrdtEngine β × List NodeCommand) :=
  match e.get_members community_id with
  | .error msg => .error msg
  | .ok members =>
    match members.find? (fun m => m.peer_id == requester_id) with
    | none => .error "requester not found in community"
    | some requester =>
      if (requester.roles.any (fun r => r == "admin" || r == "owner")) = false then
        .error "not authorized to kick members"
      else
        match members.find? (fun m => m.peer_id == member_peer_id) with
        | none => .error "member not found"
        | some target =>
          if target.roles.any (fun r => r == "owner") then
            .error "cannot kick the community owner"
          else
            match e.remove_member M community_id member_peer_id with
            | .error msg => .error msg
            | .ok e2 =>
              .ok (e2,
                if node_running then
                  [NodeCommand.SendMessage (topic_for_presence community_id)
                    (GossipMessage.MemberKicked member_peer_id)]
                else [])

-- Concrete instances used by the closed evaluation theorems.

/-- A concrete instantiation of the external primitives where the
serialized form of a document is the document itself. -/
def externModel : Externals Doc :=
  { amSave := fun d => d, amLoad := fun d => some d, amMerge := fun local_doc _ => local_doc,
    sha256hex := fun _ => "0123456789abcdef0123456789abcdef" }

/-- Empty database. -/
def emptyStorage : DiskStorage Doc :=
  { community_documents := [], community_meta := [], directory_entries := [],
    dm_conversations := [], dm_messages := [], dm_message_fts := [], fts_enabled := true }

/-- Engine with no loaded documents over an empty database. -/
def emptyEngine : CrdtEngine Doc :=
  { documents := [], storage := emptyStorage }

/-- A remote community document, as created by a peer `peerB`. -/
def sampleRemoteDoc : Doc :=
  init_community_doc externModel.sha256hex 5 "Books" "a reading club" "peerB"

/-- A community document loaded before the scenario starts. -/
def staleDoc : Doc :=
  init_community_doc externModel.sha256hex 1 "Books" "old" "peerA"

/-- Engine that already has `com_1` loaded and persisted. -/
def engineWithBooks : CrdtEngine Doc :=
  { documents := [("com_1", staleDoc)],
    storage := { emptyStorage with community_documents := [("com_1", staleDoc)] } }

/-- Decoded invite for community `com_1`. -/
def inviteBooks : InviteCode := { community_id := "com_1", community_name := "Books" }

/-- Event-loop state with nothing loaded. -/
def stEmpty : EventLoopState Doc :=
  { engine := emptyEngine, pending_join_role_guard := [], seen_dm_ids := [] }

/-- A document offer for a community the local peer has not joined. -/
def offerSample : DocumentSnapshot Doc :=
  { community_id := "com_2", doc_bytes := sampleRemoteDoc }

/-- A verification proof value (contents irrelevant to the handlers). -/
def proofSample : VerificationProof :=
  { metrics_hash := "m", signature := "s", timestamp := 1, score := 0.5 }

/-- A profile announcement from peerB carrying a proof. -/
def annSample : ProfileAnnouncement :=
  { peer_id := "peerB", display_name := "B", bio := "bio2", public_key := "pk2",
    timestamp := 7, verification_proof := some proofSample, signature := "sig" }

/-- Storage with a pre-existing directory row for peerB marked as a
friend. -/
def dirStorage : DiskStorage Doc :=
  { emptyStorage with directory_entries :=
      [{ peer_id := "peerB", display_name := "old", bio := "bio1", public_key := "pk1",
         last_seen := 3, is_friend := true }] }

/-- A direct message from peerB to peerA. -/
def dmSample : DirectMessage :=
  { id := "m1", from_peer := "peerB", to_peer := "peerA",
    from_display_name := "B", content := "hello", timestamp := 9 }

/-- A trivial stand-in for the std DefaultHasher hex rendering. -/
def hashModel : String → String → String := fun a b => a ++ "." ++ b

/-- A community document for `com_1` with one member holding role admin
and one plain member, used by the kick scenarios. -/
def kickDoc : Doc :=
  { meta := { name := "Books", description := "", created_by := "root1", created_at := 0 }
  , channels := []
  , categories := []
  , members :=
      [("root1", { display_name := "R", joined_at := 0, roles := ["owner"] }),
       ("admin1", { display_name := "A", joined_at := 1, roles := ["admin"] }),
       ("bob", { display_name := "B", joined_at := 2, roles := ["member"] })] }

/-- Engine with the kick scenario document loaded. -/
def kickEngine : CrdtEngine Doc :=
  { documents := [("com_1", kickDoc)], storage := emptyStorage }

/-- A chat message record authored by alice. -/
def chatMsgRow : DocMessage :=
  { id := "m1", author_id := "alice", author_name := "Alice", content := "hi",
    timestamp := 1, edited := false }

/-- A community document containing alice's message in channel ch1. -/
def chatDoc : Doc :=
  { meta := { name := "Books", description := "", created_by := "alice", created_at := 0 }
  , channels := [("ch1",
      { name := "general", topic := "", kind := "text", position := 0,
        category_id := none, messages := [chatMsgRow] })]
  , categories := []
  , members := [] }

/-- Engine with the chat scenario document loaded. -/
def chatEngine : CrdtEngine Doc :=
  { documents := [("com_1", chatDoc)], storage := emptyStorage }

-- Helper lemmas

/-- Looking up a key just put into an association list yields the stored
value. -/
theorem alGet_alPut_self (k : String) (v : α) (l : List (String × α)) :
    alGet k (alPut k v l) = some v := by
  induction l with
  | nil => simp [alPut, alGet]
  | cons h t ih =>
    obtain ⟨k2, w⟩ := h
    by_cases hk : (k2 == k) = true
    · simp [alPut, alGet, hk]
    · simp only [alPut, alGet, hk]
      simp only [Bool.false_eq_true, if_false] at hk ⊢
      simp [alGet, hk, ih]

/-- An engine without a document for `community_id` has `alGet = none`. -/
theorem alGet_eq_none_of_has_community_false (e : CrdtEngine β) (community_id : String)
    (h : e.has_community community_id = false) : alGet community_id e.documents = none := by
  unfold CrdtEngine.has_community at h
  cases hres : alGet community_id e.documents with
  | none => rfl
  | some d => rw [hres] at h; simp at h

/-- Generic upsert/lookup law for the SQL `INSERT .. ON CONFLICT DO
UPDATE` pattern used on list-of-row tables: looking up by the conflict
predicate afterwards yields the updated prior row, or the fresh row when
none matched. -/
theorem find_update_upsert (p : α → Bool) (upd : α → α) (e : α) (l : List α)
    (hpe : p e = true) (hupd : ∀ x, p x = true → p (upd x) = true) :
    ((if l.any p then l.map (fun r => if p r then upd r else r) else l ++ [e]).find? p) =
      (match l.find? p with
       | some r => some (upd r)
       | none => some e) := by
  induction l with
  | nil => simp [hpe]
  | cons x xs ih =>
    by_cases hx : p x = true
    · simp [List.any_cons, hx, List.find?_cons_of_pos, hupd x hx]
    · have hx2 : p x = false := by simpa using hx
      cases ha : xs.any p with
      | true =>
        simp only [ha, if_true] at ih
        simp only [List.any_cons, hx2, Bool.false_or, ha, if_true, List.map_cons]
        rw [List.find?_cons_of_neg _ (by simp [hx2]),
          List.find?_cons_of_neg _ (by simp [hx2])]
        exact ih
      | false =>
        simp only [ha, Bool.false_eq_true, if_false] at ih
        simp only [List.any_cons, hx2, Bool.false_or, ha, Bool.false_eq_true, if_false,
          List.cons_append]
        rw [List.find?_cons_of_neg _ (by simp [hx2]),
          List.find?_cons_of_neg _ (by simp [hx2])]
        exact ih

/-- The SQL CASE picking the newer last_seen computes the maximum. -/
theorem if_gt_eq_max (a b : Nat) : (if b > a then b else a) = max a b := by
  split <;> omega

/-- Looking up the saved peer after save_directory_entry returns exactly
the saved entry. -/
theorem load_directory_get_save_directory_entry (s : DiskStorage β) (e : DirectoryEntry) :
    (s.save_directory_entry e).load_directory_get e.peer_id = some e := by
  unfold DiskStorage.save_directory_entry DiskStorage.load_directory_get
  simp only
  rw [find_update_upsert (fun r => r.peer_id == e.peer_id) (fun _ => e) e s.directory_entries
    (by simp) (fun x _ => by simp)]
  cases hfind : s.directory_entries.find? (fun r => r.peer_id == e.peer_id) <;> simp [hfind]

/-- Filtering with a predicate that no element satisfies yields the empty
list. -/
theorem filter_eq_nil_of_any_false (p : α → Bool) (l : List α) (h : l.any p = false) :
    l.filter p = [] := by
  induction l with
  | nil => rfl
  | cons x xs ih =>
    simp only [List.any_cons, Bool.or_eq_false_iff] at h
    simp [List.filter_cons, h.1, ih h.2]

-- C1: CrdtEngine::merge_remote_doc on an unknown community id

/-- Claim C1, amended: when no document for `community_id` is loaded,
`merge_remote_doc` does not reject the merge; whenever the remote bytes
load successfully it inserts the remote document into the registry and
persists it.  (The unsolicited-injection rejection is performed by the
event loop's DocumentOffer handler, which checks `has_community` before
calling `merge_remote_doc`; see C3.) -/
theorem C1_merge_remote_doc_unknown_inserts (β : Type) (M : Externals β)
    (e : CrdtEngine β) (community_id : String) (remote_bytes : β) (d : Doc)
    (hload : M.amLoad remote_bytes = some d)
    (hhas : e.has_community community_id = false) :
    e.merge_remote_doc M community_id remote_bytes =
      .ok { documents := alPut community_id d e.documents,
            storage := e.storage.save_document community_id (M.amSave d) } := by
  have hget := alGet_eq_none_of_has_community_false e community_id hhas
  unfold CrdtEngine.merge_remote_doc
  rw [hload]
  simp only [hget]
  unfold CrdtEngine.persist
  simp [alGet_alPut_self]

/-- Witness for C1: a concrete engine with no document for com_1 accepts
and stores a remote snapshot. -/
theorem C1_merge_remote_doc_unknown_inserts_witness :
    emptyEngine.merge_remote_doc externModel "com_1" sampleRemoteDoc =
      .ok { documents := alPut "com_1" sampleRemoteDoc emptyEngine.documents,
            storage := emptyEngine.storage.save_document "com_1"
              (externModel.amSave sampleRemoteDoc) } :=
  C1_merge_remote_doc_unknown_inserts Doc externModel emptyEngine "com_1" sampleRemoteDoc
    sampleRemoteDoc rfl rfl

/-- Counterexample to claim C1 as stated: with no document loaded for
com_1, `merge_remote_doc` returns Ok (not an error), creates the document
in memory and persists a row for it. -/
theorem C1_counterexample :
    (match emptyEngine.merge_remote_doc externModel "com_1" sampleRemoteDoc with
     | .ok e2 => e2.has_community "com_1" &&
         (alGet "com_1" e2.storage.community_documents).isSome
     | .error _ => false) = true := rfl

-- C4: CrdtEngine::create_community with an already-loaded document

/-- Claim C4, amended: `create_community` performs no already-loaded
check; for every engine state it succeeds, replacing any loaded document
for `community_id` with the freshly initialized one and persisting it. -/
theorem C4_create_community_overwrites (β : Type) (M : Externals β) (now : Int)
    (e : CrdtEngine β) (community_id name description created_by : String) :
    e.create_community M now community_id name description created_by =
      .ok { documents :=
              alPut community_id (init_community_doc M.sha256hex now name description created_by)
                e.documents,
            storage := e.storage.save_document community_id
              (M.amSave (init_community_doc M.sha256hex now name description created_by)) } := by
  unfold CrdtEngine.create_community CrdtEngine.persist
  simp [alGet_alPut_self]

/-- Counterexample to claim C4 as stated: with a document for com_1
already loaded (description "old"), `create_community` returns Ok and the
loaded document is replaced by the fresh one (description "fresh"). -/
theorem C4_counterexample :
    (match engineWithBooks.create_community externModel 2 "com_1" "Books" "fresh" "peerA" with
     | .ok e2 => (alGet "com_1" e2.documents).map (fun d => d.meta.description)
     | .error _ => none) = some "fresh" ∧ staleDoc.meta.description = "old" :=
  ⟨rfl, rfl⟩

-- C5: leave_community does not remove the document

/-- Claim C5, amended: `leave_community` enqueues only Unsubscribe
commands (for the community's channel message and typing topics and its
presence topic) and leaves the engine untouched: the document registry
and the persisted document rows after the call are those before it. -/
theorem C5_leave_community_only_unsubscribes (β : Type) (community_id : String)
    (node_running : Bool) (e : CrdtEngine β) :
    (leave_community community_id node_running e).1 = e ∧
    ((leave_community community_id node_running e).2.all NodeCommand.is_unsubscribe) = true := by
  refine ⟨rfl, ?_⟩
  unfold leave_community
  simp only [List.all_eq_true]
  intro cmd hcmd
  cases node_running with
  | false => simp at hcmd
  | true =>
    simp only [if_true] at hcmd
    rcases List.mem_append.mp hcmd with h | h
    · cases hch : CrdtEngine.get_channels e community_id with
      | error msg => rw [hch] at h; simp at h
      | ok channels =>
        rw [hch] at h
        rcases List.mem_flatten.mp h with ⟨pair, hpair, hmem⟩
        rcases List.mem_map.mp hpair with ⟨ch, _, hpaireq⟩
        rw [← hpaireq] at hmem
        simp only [List.mem_cons, List.mem_singleton, List.not_mem_nil, or_false] at hmem
        rcases hmem with rfl | rfl
        · rfl
        · rfl
    · rw [List.mem_singleton.mp h]
      rfl

/-- Counterexample to claim C5 as stated: leaving com_1 neither removes
the loaded document from the engine nor deletes the persisted row. -/
theorem C5_counterexample :
    (leave_community "com_1" true engineWithBooks).1.has_community "com_1" = true ∧
    alGet "com_1" (leave_community "com_1" true engineWithBooks).1.storage.community_documents
      = some staleDoc :=
  ⟨rfl, rfl⟩

-- C2: join_community (commands/community.rs) grants the local peer the
-- owner role and never touches pending_join_role_guard

/-- Claim C2 failing input evaluated on the code: joining com_1 via a
valid invite with no local document creates the document through
`create_community`, so its members map holds exactly the local peer with
role owner, and the pending_join_role_guard set (here previously holding
com_9) is returned untouched: com_1 is never inserted. -/
theorem C2_join_community_grants_owner_and_skips_guard :
    (match join_community externModel 0 inviteBooks "peerA" false emptyEngine ["com_9"] with
     | .ok out => ((alGet "com_1" out.1.documents).map Doc.members, out.2.1)
     | .error _ => (none, [])) =
    (some [("peerA", { display_name := "", joined_at := 0, roles := ["owner"] })], ["com_9"]) :=
  rfl

-- C3: DocumentOffer for an unknown community is discarded

/-- Claim C3: handling a DocumentOffer whose community_id has no loaded
document leaves the event-loop state unchanged (no document created or
persisted, guard and dedup sets untouched), performs no subscribe or
publish effect, and emits no event. -/
theorem C3_document_offer_unknown_community_noop (β : Type) (M : Externals β)
    (local_peer_id : String) (snapshot : DocumentSnapshot β) (st : EventLoopState β)
    (h : st.engine.has_community snapshot.community_id = false) :
    handle_document_offer M local_peer_id snapshot st = (st, [], []) := by
  unfold handle_document_offer
  simp [h]

/-- Witness for C3: an offer for com_2 against a state with no loaded
documents changes nothing. -/
theorem C3_document_offer_unknown_community_noop_witness :
    handle_document_offer externModel "peerA" offerSample stEmpty = (stEmpty, [], []) :=
  C3_document_offer_unknown_community_noop Doc externModel "peerA" offerSample stEmpty rfl

-- C6: ProfileAnnounce verification gate and is_friend preservation

/-- Claim C6: the ProfileAnnounce handler performs no storage write at
all when the signature does not verify or the verification proof is
absent; when it writes, the stored row for the announcing peer carries
the announcement's fields with is_friend equal to the previously stored
value (false when no prior row existed). -/
theorem C6_profile_announce_guarded_upsert (β : Type)
    (verify_announcement : String → ProfileAnnouncement → Bool)
    (profile : ProfileAnnouncement) (s : DiskStorage β) :
    (verify_announcement profile.public_key profile = false ∨
        profile.verification_proof = none →
      handle_profile_announce verify_announcement profile s = (s, []))
    ∧ (verify_announcement profile.public_key profile = true →
       profile.verification_proof.isSome = true →
      (handle_profile_announce verify_announcement profile s).1.load_directory_get
          profile.peer_id =
        some { peer_id := profile.peer_id, display_name := profile.display_name,
               bio := profile.bio, public_key := profile.public_key,
               last_seen := profile.timestamp,
               is_friend := ((s.load_directory_get profile.peer_id).map
                 (fun r => r.is_friend)).getD false }) := by
  constructor
  · intro h
    unfold handle_profile_announce
    rcases h with h | h
    · simp [h]
    · cases hv : verify_announcement profile.public_key profile
      · simp
      · simp [h]
  · intro hv hsome
    cases hp : profile.verification_proof with
    | none => rw [hp] at hsome; simp at hsome
    | some proof =>
      unfold handle_profile_announce
      simp only [hv, Bool.true_eq_false, if_false, hp, Option.isNone_some,
        Bool.false_eq_true, if_false]
      exact load_directory_get_save_directory_entry s _

/-- Witness for C6: a verified announcement from peerB over a directory
where peerB is already stored as a friend keeps is_friend true while
refreshing the profile fields. -/
theorem C6_profile_announce_guarded_upsert_witness :
    (handle_profile_announce (fun _ _ => true) annSample dirStorage).1.load_directory_get
        "peerB" =
      some { peer_id := "peerB", display_name := "B", bio := "bio2", public_key := "pk2",
             last_seen := 7, is_friend := true } := by
  have h := (C6_profile_announce_guarded_upsert Doc (fun _ _ => true) annSample
    dirStorage).2 rfl rfl
  simpa using h

-- C8: save_directory_entry_if_new update/insert semantics

/-- Claim C8: for a directory already holding a row for the entry's peer,
save_directory_entry_if_new preserves bio, public_key and is_friend,
replaces display_name, and sets last_seen to the maximum of the old and
new values; when no row existed, the full entry is inserted. -/
theorem C8_save_directory_entry_if_new_semantics (β : Type) (s : DiskStorage β)
    (entry : DirectoryEntry) :
    (∀ r, s.load_directory_get entry.peer_id = some r →
      (s.save_directory_entry_if_new entry).load_directory_get entry.peer_id =
        some { peer_id := r.peer_id, display_name := entry.display_name, bio := r.bio,
               public_key := r.public_key, last_seen := max r.last_seen entry.last_seen,
               is_friend := r.is_friend })
    ∧ (s.load_directory_get entry.peer_id = none →
      (s.save_directory_entry_if_new entry).load_directory_get entry.peer_id = some entry) := by
  have key := find_update_upsert (fun r => r.peer_id == entry.peer_id)
    (fun r => { r with display_name := entry.display_name,
                       last_seen := if entry.last_seen > r.last_seen then entry.last_seen
                                    else r.last_seen })
    entry s.directory_entries (by simp) (fun x hx => by simpa using hx)
  constructor
  · intro r hr
    unfold DiskStorage.load_directory_get at hr ⊢
    unfold DiskStorage.save_directory_entry_if_new
    simp only
    rw [key, hr]
    obtain ⟨pid, dn, bio, pk, ls, fr⟩ := r
    simp [if_gt_eq_max]
  · intro hr
    unfold DiskStorage.load_directory_get at hr ⊢
    unfold DiskStorage.save_directory_entry_if_new
    simp only
    rw [key, hr]

/-- Witness for C8: updating peerB (previously last_seen 3, friend, bio1,
pk1) with a newer sighting (last_seen 7, display_name B) keeps bio,
public_key and is_friend and advances last_seen to 7. -/
theorem C8_save_directory_entry_if_new_semantics_witness :
    (dirStorage.save_directory_entry_if_new
        { peer_id := "peerB", display_name := "B", bio := "ignored", public_key := "ignored",
          last_seen := 7, is_friend := false }).load_directory_get "peerB" =
      some { peer_id := "peerB", display_name := "B", bio := "bio1", public_key := "pk1",
             last_seen := 7, is_friend := true } := by
  have h := (C8_save_directory_entry_if_new_semantics Doc dirStorage
    { peer_id := "peerB", display_name := "B", bio := "ignored", public_key := "ignored",
      last_seen := 7, is_friend := false }).1
    { peer_id := "peerB", display_name := "old", bio := "bio1", public_key := "pk1",
      last_seen := 3, is_friend := true } rfl
  simpa using h

-- C7 support lemmas

/-- save_dm_conversation never touches the dm_messages table. -/
theorem save_dm_conversation_dm_messages (s : DiskStorage β) (conversation_id : String)
    (meta : DMConversationMeta) :
    (s.save_dm_conversation conversation_id meta).dm_messages = s.dm_messages := rfl

/-- A message whose id is already present is ignored by
append_dm_message. -/
theorem append_dm_message_dm_messages_of_present (s : DiskStorage β)
    (conversation_id : String) (m : DirectMessage)
    (h : s.dm_messages.any (fun r => r.id == m.id) = true) :
    (s.append_dm_message conversation_id m).dm_messages = s.dm_messages := by
  unfold DiskStorage.append_dm_message
  simp [h]

/-- A message whose id is fresh is appended as one row. -/
theorem append_dm_message_dm_messages_of_absent (s : DiskStorage β)
    (conversation_id : String) (m : DirectMessage)
    (h : s.dm_messages.any (fun r => r.id == m.id) = false) :
    (s.append_dm_message conversation_id m).dm_messages =
      s.dm_messages ++
        [{ id := m.id, conversation_id := conversation_id, from_peer := m.from_peer,
           to_peer := m.to_peer, from_display_name := m.from_display_name,
           content := m.content, timestamp := m.timestamp }] := by
  unfold DiskStorage.append_dm_message
  simp [h]

/-- When the conversation row and the message id are both already
present, append_dm_message is the identity. -/
theorem append_dm_message_no_op (s : DiskStorage β) (conversation_id : String)
    (m : DirectMessage)
    (hc : s.dm_conversations.any (fun r => r.conversation_id == conversation_id) = true)
    (hm : s.dm_messages.any (fun r => r.id == m.id) = true) :
    s.append_dm_message conversation_id m = s := by
  unfold DiskStorage.append_dm_message
  simp [hc, hm]

/-- After an append, the conversation row for the target conversation
exists. -/
theorem append_dm_message_conv_present (s : DiskStorage β) (conversation_id : String)
    (m : DirectMessage) :
    (s.append_dm_message conversation_id m).dm_conversations.any
      (fun r => r.conversation_id == conversation_id) = true := by
  unfold DiskStorage.append_dm_message
  simp only
  cases hc : s.dm_conversations.any (fun r => r.conversation_id == conversation_id) with
  | true => simpa using hc
  | false => simp [List.any_append]

/-- After an append, a row with the message's id exists. -/
theorem append_dm_message_id_present (s : DiskStorage β) (conversation_id : String)
    (m : DirectMessage) :
    (s.append_dm_message conversation_id m).dm_messages.any
      (fun r => r.id == m.id) = true := by
  unfold DiskStorage.append_dm_message
  simp only
  cases hm : s.dm_messages.any (fun r => r.id == m.id) with
  | true => simpa using hm
  | false => simp [List.any_append]

/-- First-delivery shape of the DirectMessage handler: for a message
addressed to the local peer whose id is not in the dedup set, the
resulting storage's dm_messages are those of append_dm_message on the
derived conversation id, and the dedup set gains the id (or is cleared by
the 10000 cap). -/
theorem handle_direct_message_first (hash64hex : String → String → String)
    (local_id topic_str : String) (m : DirectMessage) (st : EventLoopState β)
    (hto : m.to_peer = local_id) (hseen : st.seen_dm_ids.contains m.id = false) :
    (handle_direct_message hash64hex local_id topic_str m st).1.engine.storage.dm_messages =
      (st.engine.storage.append_dm_message
        (dm_conversation_id hash64hex m.from_peer m.to_peer) m).dm_messages ∧
    (handle_direct_message hash64hex local_id topic_str m st).1.seen_dm_ids =
      (if (m.id :: st.seen_dm_ids).length > 10000 then [] else m.id :: st.seen_dm_ids) := by
  subst hto
  have hseen2 : m.id ∉ st.seen_dm_ids := by simpa using hseen
  unfold handle_direct_message
  simp [hseen2, save_dm_conversation_dm_messages]

/-- A message whose id is already in the dedup set is dropped without any
state change. -/
theorem handle_direct_message_dedup (hash64hex : String → String → String)
    (local_id topic_str : String) (m : DirectMessage) (st : EventLoopState β)
    (hto : m.to_peer = local_id) (hseen : st.seen_dm_ids.contains m.id = true) :
    handle_direct_message hash64hex local_id topic_str m st = (st, [], []) := by
  subst hto
  have hseen2 : m.id ∈ st.seen_dm_ids := by simpa using hseen
  unfold handle_direct_message
  simp [hseen2]

-- C7: append_dm_message placeholder + idempotence + event-loop dedup

/-- Claim C7: append_dm_message creates a placeholder conversation row
when none exists; it is idempotent on the message id (the second call is
the identity, so in particular the dm_messages table equals that of a
single call); and a DM addressed to the local peer that is delivered on
two topics (inbox and pair, in either order) ends up stored as exactly
one dm_messages row for its id. -/
theorem C7_append_dm_message_idempotent_dedup (β : Type) (s : DiskStorage β)
    (conversation_id : String) (m : DirectMessage)
    (hash64hex : String → String → String) (local_id topic1 topic2 : String)
    (st : EventLoopState β) :
    (s.dm_conversations.any (fun r => r.conversation_id == conversation_id) = false →
      (s.append_dm_message conversation_id m).dm_conversations =
        s.dm_conversations ++
          [{ conversation_id := conversation_id, peer_id := m.from_peer,
             display_name := m.from_display_name, last_message := none,
             last_message_time := none, unread_count := 0 }])
    ∧ ((s.append_dm_message conversation_id m).append_dm_message conversation_id m =
        s.append_dm_message conversation_id m)
    ∧ (m.to_peer = local_id → st.seen_dm_ids.contains m.id = false →
       st.engine.storage.dm_messages.any (fun r => r.id == m.id) = false →
       ((handle_direct_message hash64hex local_id topic2 m
           (handle_direct_message hash64hex local_id topic1 m st).1).1.engine.storage.dm_messages.filter
         (fun r => r.id == m.id)).length = 1) := by
  refine ⟨?_, ?_, ?_⟩
  · intro hc
    unfold DiskStorage.append_dm_message
    simp [hc]
  · exact append_dm_message_no_op _ conversation_id m
      (append_dm_message_conv_present s conversation_id m)
      (append_dm_message_id_present s conversation_id m)
  · intro hto hseen habs
    obtain ⟨hmsgs1, hseen1⟩ :=
      handle_direct_message_first hash64hex local_id topic1 m st hto hseen
    have hmsgs1' : (handle_direct_message hash64hex local_id topic1 m
        st).1.engine.storage.dm_messages =
        st.engine.storage.dm_messages ++
          [{ id := m.id, conversation_id := dm_conversation_id hash64hex m.from_peer m.to_peer,
             from_peer := m.from_peer, to_peer := m.to_peer,
             from_display_name := m.from_display_name, content := m.content,
             timestamp := m.timestamp }] := by
      rw [hmsgs1, append_dm_message_dm_messages_of_absent _ _ _ habs]
    have hany1 : (handle_direct_message hash64hex local_id topic1 m
        st).1.engine.storage.dm_messages.any (fun r => r.id == m.id) = true := by
      rw [hmsgs1']
      simp [List.any_append]
    have hcount1 : ((handle_direct_message hash64hex local_id topic1 m
        st).1.engine.storage.dm_messages.filter (fun r => r.id == m.id)).length = 1 := by
      rw [hmsgs1', List.filter_append, filter_eq_nil_of_any_false _ _ habs]
      simp
    by_cases hcap : (m.id :: st.seen_dm_ids).length > 10000
    · have hclear : (handle_direct_message hash64hex local_id topic1 m
          st).1.seen_dm_ids = [] := by
        rw [hseen1, if_pos hcap]
      have hnotseen : (handle_direct_message hash64hex local_id topic1 m
          st).1.seen_dm_ids.contains m.id = false := by
        rw [hclear]; rfl
      obtain ⟨hmsgs2, _⟩ := handle_direct_message_first hash64hex local_id topic2 m
        (handle_direct_message hash64hex local_id topic1 m st).1 hto hnotseen
      rw [hmsgs2, append_dm_message_dm_messages_of_present _ _ _ hany1]
      exact hcount1
    · have hkeep : (handle_direct_message hash64hex local_id topic1 m
          st).1.seen_dm_ids = m.id :: st.seen_dm_ids := by
        rw [hseen1, if_neg hcap]
      have hisseen : (handle_direct_message hash64hex local_id topic1 m
          st).1.seen_dm_ids.contains m.id = true := by
        rw [hkeep]
        simp [List.contains_cons]
      rw [handle_direct_message_dedup hash64hex local_id topic2 m _ hto hisseen]
      exact hcount1

/-- Witness for C7: peerA receives dmSample on the inbox topic and then
again on the pair topic; exactly one dm_messages row for id m1 is
stored. -/
theorem C7_append_dm_message_idempotent_dedup_witness :
    ((handle_direct_message hashModel "peerA" (topic_for_dm "peerB" "peerA") dmSample
        (handle_direct_message hashModel "peerA" (topic_for_dm_inbox "peerA") dmSample
          stEmpty).1).1.engine.storage.dm_messages.filter
      (fun r => r.id == dmSample.id)).length = 1 :=
  (C7_append_dm_message_idempotent_dedup Doc emptyStorage "c" dmSample hashModel "peerA"
    (topic_for_dm_inbox "peerA") (topic_for_dm "peerB" "peerA") stEmpty).2.2 rfl rfl rfl

-- C9 support lemma

/-- Finding a member built by get_members_doc by peer id corresponds to
the association-list lookup in the document's members map. -/
theorem members_map_find (p : String) (l : List (String × DocMember)) :
    (l.map (fun q =>
      ({ peer_id := q.1, display_name := q.2.display_name,
         status := PeerStatus.Online, roles := q.2.roles, trust_level := 1.0,
         joined_at := q.2.joined_at.toNat } : Member))).find? (fun m => m.peer_id == p) =
      (alGet p l).map (fun dm =>
        ({ peer_id := p, display_name := dm.display_name,
           status := PeerStatus.Online, roles := dm.roles, trust_level := 1.0,
           joined_at := dm.joined_at.toNat } : Member)) := by
  induction l with
  | nil => rfl
  | cons q rest ih =>
    obtain ⟨k, dm⟩ := q
    by_cases hk : (k == p) = true
    · have hkp : k = p := by simpa using hk
      subst hkp
      rw [List.map_cons, List.find?_cons_of_pos _ (by simp)]
      simp [alGet]
    · have hk2 : (k == p) = false := by simpa using hk
      rw [List.map_cons, List.find?_cons_of_neg _ (by simp [hk2]), ih]
      simp [alGet, hk2]

-- C9: kick_member authorization

/-- Claim C9: with the requester present in the community's members map,
kick_member (a) fails with "not authorized to kick members" and changes
nothing (no engine mutation, no broadcast) when the requester holds
neither owner nor admin; (b) fails with an error when the target member
holds the owner role; (c) otherwise removes the target from the members
map, persists, and broadcasts MemberKicked on the presence topic when the
node is running. -/
theorem C9_kick_member_authorization (β : Type) (M : Externals β) (e : CrdtEngine β)
    (community_id requester_id member_peer_id : String) (node_running : Bool)
    (doc : Doc) (rm : DocMember)
    (hdoc : alGet community_id e.documents = some doc)
    (hreq : alGet requester_id doc.members = some rm) :
    (rm.roles.any (fun r => r == "admin" || r == "owner") = false →
      kick_member M requester_id community_id member_peer_id node_running e =
        .error "not authorized to kick members")
    ∧ (∀ tm, alGet member_peer_id doc.members = some tm →
        tm.roles.any (fun r => r == "owner") = true →
        ∃ msg, kick_member M requester_id community_id member_peer_id node_running e =
          .error msg)
    ∧ (∀ tm, rm.roles.any (fun r => r == "admin" || r == "owner") = true →
        alGet member_peer_id doc.members = some tm →
        tm.roles.any (fun r => r == "owner") = false →
        kick_member M requester_id community_id member_peer_id node_running e =
          .ok ({ documents := alPut community_id
                   { doc with members := alDelete member_peer_id doc.members } e.documents,
                 storage := e.storage.save_document community_id
                   (M.amSave { doc with members := alDelete member_peer_id doc.members }) },
               if node_running then
                 [NodeCommand.SendMessage (topic_for_presence community_id)
                   (GossipMessage.MemberKicked member_peer_id)]
               else [])) := by
  have hmem : e.get_members community_id = .ok (get_members_doc doc) := by
    unfold CrdtEngine.get_members
    rw [hdoc]
  have hfindreq : (get_members_doc doc).find? (fun m => m.peer_id == requester_id) =
      some { peer_id := requester_id, display_name := rm.display_name,
             status := PeerStatus.Online, roles := rm.roles, trust_level := 1.0,
             joined_at := rm.joined_at.toNat } := by
    unfold get_members_doc
    rw [members_map_find, hreq]
    rfl
  refine ⟨?_, ?_, ?_⟩
  · intro hnotadmin
    unfold kick_member
    rw [hmem]
    simp [hfindreq, hnotadmin]
  · intro tm htm howner
    by_cases hadm : rm.roles.any (fun r => r == "admin" || r == "owner") = true
    · have hfindtm : (get_members_doc doc).find? (fun m => m.peer_id == member_peer_id) =
          some { peer_id := member_peer_id, display_name := tm.display_name,
                 status := PeerStatus.Online, roles := tm.roles, trust_level := 1.0,
                 joined_at := tm.joined_at.toNat } := by
        unfold get_members_doc
        rw [members_map_find, htm]
        rfl
      refine ⟨"cannot kick the community owner", ?_⟩
      unfold kick_member
      rw [hmem]
      simp [hfindreq, hadm, hfindtm, howner]
    · have hnotadmin : rm.roles.any (fun r => r == "admin" || r == "owner") = false := by
        simpa using hadm
      refine ⟨"not authorized to kick members", ?_⟩
      unfold kick_member
      rw [hmem]
      simp [hfindreq, hnotadmin]
  · intro tm hadm htm hnotowner
    have hfindtm : (get_members_doc doc).find? (fun m => m.peer_id == member_peer_id) =
        some { peer_id := member_peer_id, display_name := tm.display_name,
               status := PeerStatus.Online, roles := tm.roles, trust_level := 1.0,
               joined_at := tm.joined_at.toNat } := by
      unfold get_members_doc
      rw [members_map_find, htm]
      rfl
    have hremove : e.remove_member M community_id member_peer_id =
        .ok { documents := alPut community_id
                { doc with members := alDelete member_peer_id doc.members } e.documents,
              storage := e.storage.save_document community_id
                (M.amSave { doc with members := alDelete member_peer_id doc.members }) } := by
      unfold CrdtEngine.remove_member
      rw [hdoc]
      unfold remove_member_doc CrdtEngine.persist
      simp [alGet_alPut_self]
    unfold kick_member
    rw [hmem]
    simp [hfindreq, hadm, hfindtm, hnotowner, hremove]

/-- Witness for C9: in a community where admin1 has role admin and bob has
role member, bob cannot kick admin1 ("not authorized"), nobody can kick
root1 (the owner), and admin1 successfully kicks bob with a MemberKicked
broadcast. -/
theorem C9_kick_member_authorization_witness :
    kick_member externModel "bob" "com_1" "admin1" true kickEngine =
      .error "not authorized to kick members"
    ∧ (∃ msg, kick_member externModel "admin1" "com_1" "root1" true kickEngine = .error msg)
    ∧ kick_member externModel "admin1" "com_1" "bob" true kickEngine =
        .ok ({ documents := alPut "com_1"
                 { kickDoc with members := alDelete "bob" kickDoc.members }
                 kickEngine.documents,
               storage := kickEngine.storage.save_document "com_1"
                 (externModel.amSave
                   { kickDoc with members := alDelete "bob" kickDoc.members }) },
             [NodeCommand.SendMessage (topic_for_presence "com_1")
               (GossipMessage.MemberKicked "bob")]) := by
  refine ⟨?_, ?_, ?_⟩
  · exact (C9_kick_member_authorization Doc externModel kickEngine "com_1" "bob" "admin1"
      true kickDoc { display_name := "B", joined_at := 2, roles := ["member"] } rfl rfl).1 rfl
  · exact (C9_kick_member_authorization Doc externModel kickEngine "com_1" "admin1" "root1"
      true kickDoc { display_name := "A", joined_at := 1, roles := ["admin"] } rfl rfl).2.1
      { display_name := "R", joined_at := 0, roles := ["owner"] } rfl rfl
  · exact (C9_kick_member_authorization Doc externModel kickEngine "com_1" "admin1" "bob"
      true kickDoc { display_name := "A", joined_at := 1, roles := ["admin"] } rfl rfl).2.2
      { display_name := "B", joined_at := 2, roles := ["member"] } rfl rfl rfl

-- C10: DeleteMessage gossip has no sender authorization

/-- Claim C10: the DeleteMessage gossip handler's result is a function of
the topic, the message id and the engine only - the envelope's sender is
never inspected, so any two senders of the same envelope produce the
identical CRDT state; whenever the engine-level delete succeeds the
handler commits it (for any sender, in particular one who is not the
author); the author-only check exists solely in the local delete_message
command, which rejects a requester who is not the message's author
without mutating anything. -/
theorem C10_delete_message_gossip_no_sender_auth (β : Type) (M : Externals β)
    (sender1 sender2 topic_str message_id : String) (e : CrdtEngine β)
    (node_running : Bool) :
    (handle_delete_message_gossip M sender1 topic_str message_id e =
       handle_delete_message_gossip M sender2 topic_str message_id e)
    ∧ (∀ community_id e2, community_id_from_topic topic_str = some community_id →
        e.delete_message M community_id message_id = .ok e2 →
        handle_delete_message_gossip M sender1 topic_str message_id e =
          (e2, [DuskEvent.MessageDeleted message_id]))
    ∧ (∀ requester community_id m,
        e.get_message community_id message_id = .ok (some m) →
        m.author_id ≠ requester →
        delete_message M requester community_id message_id node_running e =
          .error "not authorized to delete this message") := by
  refine ⟨rfl, ?_, ?_⟩
  · intro community_id e2 htopic hdel
    unfold handle_delete_message_gossip
    rw [htopic]
    simp [hdel]
  · intro requester community_id m hget hauthor
    unfold delete_message
    rw [hget]
    simp [hauthor]

/-- Witness for C10: a DeleteMessage envelope for alice's message m1 is
applied identically whether sent by mallory or by alice, and mallory's
local delete_message call is rejected. -/
theorem C10_delete_message_gossip_no_sender_auth_witness :
    (handle_delete_message_gossip externModel "mallory" (topic_for_messages "com_1" "ch1")
        "m1" chatEngine =
      handle_delete_message_gossip externModel "alice" (topic_for_messages "com_1" "ch1")
        "m1" chatEngine)
    ∧ delete_message externModel "mallory" "com_1" "m1" true chatEngine =
        .error "not authorized to delete this message" := by
  refine ⟨?_, ?_⟩
  · exact (C10_delete_message_gossip_no_sender_auth Doc externModel "mallory" "alice"
      (topic_for_messages "com_1" "ch1") "m1" chatEngine true).1
  · exact (C10_delete_message_gossip_no_sender_auth Doc externModel "mallory" "alice"
      (topic_for_messages "com_1" "ch1") "m1" chatEngine true).2.2 "mallory" "com_1"
      { id := "m1", channel_id := "ch1", author_id := "alice", author_name := "Alice",
        content := "hi", timestamp := 1, edited := false } rfl (by decide)

end Dusk
